import Mathlib

/-!
Verification of the Sequence & Series Computation Core of `src/app.py`.

Numbers are modelled as exact rationals (`ℚ`); the Python `int` term count
is modelled as `ℤ`.  Python's `range(num_terms)` is empty for a nonpositive
count, which `Int.toNat` captures, and Python's `**` on a float base with a
natural exponent (where `0 ** 0 == 1`) is `Monoid.npow`, while `**` with an
`int` exponent in the series-sum formula is `zpow`.
-/

/-- `generate_arithmetic_sequence` from `src/app.py` (lines 3–19): the list
whose entry for each `i` in `range(num_terms)` is
`first_term + i * common_difference`, built by the loop via `append`. -/
def generate_arithmetic_sequence (first_term common_difference : ℚ)
    (num_terms : ℤ) : List ℚ :=
  (List.range num_terms.toNat).map fun i : ℕ => first_term + (i : ℚ) * common_difference

/-- `generate_geometric_sequence` from `src/app.py` (lines 21–37): the list
whose entry for each `i` in `range(num_terms)` is
`first_term * common_ratio ** i`. -/
def generate_geometric_sequence (first_term common_ratio : ℚ)
    (num_terms : ℤ) : List ℚ :=
  (List.range num_terms.toNat).map fun i : ℕ => first_term * common_ratio ^ i

/-- `calculate_geometric_series_sum` from `src/app.py` (lines 39–54):
`first_term * num_terms` when `common_ratio == 1`, otherwise
`first_term * (1 - common_ratio ** num_terms) / (1 - common_ratio)`. -/
def calculate_geometric_series_sum (first_term common_ratio : ℚ)
    (num_terms : ℤ) : ℚ :=
  if common_ratio = 1 then first_term * (num_terms : ℚ)
  else first_term * (1 - common_ratio ^ num_terms) / (1 - common_ratio)

/-- The `num_terms` validation performed by `main` in `src/app.py`
(lines 124–130) before either generator is invoked: a nonpositive or
oversized count is reported with an inline error message and the engine is
not called. -/
def num_terms_validation_error (num_terms : ℤ) : Option String :=
  if num_terms ≤ 0 then some "Number of terms must be a positive integer."
  else if num_terms > 1000 then
    some "Number of terms cannot exceed 1000 for performance reasons."
  else none

theorem generate_arithmetic_sequence_length (a d : ℚ) (n : ℤ) :
    (generate_arithmetic_sequence a d n).length = n.toNat := by
  simp [generate_arithmetic_sequence]

theorem generate_geometric_sequence_length (a r : ℚ) (n : ℤ) :
    (generate_geometric_sequence a r n).length = n.toNat := by
  simp [generate_geometric_sequence]

theorem generate_arithmetic_sequence_getD (a d : ℚ) (n : ℤ) {i : ℕ}
    (hi : i < n.toNat) :
    (generate_arithmetic_sequence a d n).getD i 0 = a + (i : ℚ) * d := by
  unfold generate_arithmetic_sequence
  rw [List.getD_eq_getElem?_getD]
  simp [List.getElem?_map, List.getElem?_range hi]

theorem generate_geometric_sequence_getD (a r : ℚ) (n : ℤ) {i : ℕ}
    (hi : i < n.toNat) :
    (generate_geometric_sequence a r n).getD i 0 = a * r ^ i := by
  unfold generate_geometric_sequence
  rw [List.getD_eq_getElem?_getD]
  simp [List.getElem?_map, List.getElem?_range hi]

/-- C1: for `n ≥ 1`, `generate_arithmetic_sequence a d n` has exactly `n`
elements, its element at 0-indexed position `i` is `a + i * d`, its first
element is `a` and its last element is `a + (n - 1) * d`. -/
theorem arithmetic_sequence_terms_correct (a d : ℚ) (n : ℤ) (h : 1 ≤ n) :
    ((generate_arithmetic_sequence a d n).length : ℤ) = n ∧
    (∀ i : ℕ, (i : ℤ) < n →
      (generate_arithmetic_sequence a d n).getD i 0 = a + (i : ℚ) * d) ∧
    (generate_arithmetic_sequence a d n).getD 0 0 = a ∧
    (generate_arithmetic_sequence a d n).getD (n.toNat - 1) 0
      = a + ((n : ℚ) - 1) * d := by
  have hlen := generate_arithmetic_sequence_length a d n
  have hn : (n.toNat : ℤ) = n := Int.toNat_of_nonneg (by omega)
  refine ⟨by rw [hlen, hn], ?_, ?_, ?_⟩
  · intro i hi
    exact generate_arithmetic_sequence_getD a d n (by omega)
  · rw [generate_arithmetic_sequence_getD a d n (by omega)]
    push_cast
    ring
  · rw [generate_arithmetic_sequence_getD a d n (by omega)]
    have h1 : (1 : ℕ) ≤ n.toNat := by omega
    have : ((n.toNat - 1 : ℕ) : ℚ) = (n : ℚ) - 1 := by
      have : ((n.toNat - 1 : ℕ) : ℤ) = n - 1 := by omega
      exact_mod_cast congrArg (fun z : ℤ => (z : ℚ)) this
    rw [this]

/-- Witness for C1 at `a = 2`, `d = 3`, `n = 5` (spec Scenario 1). -/
theorem arithmetic_sequence_terms_correct_witness :
    (1 : ℤ) ≤ 5 ∧
    (generate_arithmetic_sequence 2 3 5).getD ((5 : ℤ).toNat - 1) 0
      = 2 + (((5 : ℤ) : ℚ) - 1) * 3 :=
  ⟨by decide, (arithmetic_sequence_terms_correct 2 3 5 (by decide)).2.2.2⟩

/-- C2: for `n ≥ 1`, `generate_geometric_sequence a r n` has exactly `n`
elements, its element at 0-indexed position `i` is `a * r ^ i`, and its
first element is `a`. -/
theorem geometric_sequence_terms_correct (a r : ℚ) (n : ℤ) (h : 1 ≤ n) :
    ((generate_geometric_sequence a r n).length : ℤ) = n ∧
    (∀ i : ℕ, (i : ℤ) < n →
      (generate_geometric_sequence a r n).getD i 0 = a * r ^ i) ∧
    (generate_geometric_sequence a r n).getD 0 0 = a := by
  have hlen := generate_geometric_sequence_length a r n
  have hn : (n.toNat : ℤ) = n := Int.toNat_of_nonneg (by omega)
  refine ⟨by rw [hlen, hn], ?_, ?_⟩
  · intro i hi
    exact generate_geometric_sequence_getD a r n (by omega)
  · rw [generate_geometric_sequence_getD a r n (by omega)]
    simp

/-- Witness for C2 at `a = 2`, `r = 3`, `n = 4` (spec Scenario 3). -/
theorem geometric_sequence_terms_correct_witness :
    (1 : ℤ) ≤ 4 ∧ (generate_geometric_sequence 2 3 4).getD 0 0 = 2 :=
  ⟨by decide, (geometric_sequence_terms_correct 2 3 4 (by decide)).2.2⟩

theorem list_sum_map_range (f : ℕ → ℚ) (m : ℕ) :
    ((List.range m).map f).sum = ∑ i ∈ Finset.range m, f i := by
  induction m with
  | zero => simp
  | succ k ih =>
      rw [List.range_succ, List.map_append, List.sum_append,
        Finset.sum_range_succ, ih]
      simp

/-- C3: for `n ≥ 1`, `calculate_geometric_series_sum a r n` is `a * n`
exactly when `r = 1` (an exact equality test, not a tolerance), and
`a * (1 - r ^ n) / (1 - r)` otherwise. -/
theorem geometric_series_sum_cases (a r : ℚ) (n : ℤ) (h : 1 ≤ n) :
    (r = 1 → calculate_geometric_series_sum a r n = a * (n : ℚ)) ∧
    (r ≠ 1 → calculate_geometric_series_sum a r n
      = a * (1 - r ^ n) / (1 - r)) := by
  constructor
  · intro hr
    simp [calculate_geometric_series_sum, hr]
  · intro hr
    simp [calculate_geometric_series_sum, hr]

/-- Witness for C3 at `a = 3`, `r = 1`, `n = 4`. -/
theorem geometric_series_sum_cases_witness :
    (1 : ℤ) ≤ 4 ∧ calculate_geometric_series_sum 3 1 4 = 3 * ((4 : ℤ) : ℚ) :=
  ⟨by decide, (geometric_series_sum_cases 3 1 4 (by decide)).1 rfl⟩

/-- C4: for `n ≥ 1` and `r ≠ 1`, the sum of the elements of
`generate_geometric_sequence a r n` equals
`calculate_geometric_series_sum a r n`, exactly over rational
arithmetic. -/
theorem geometric_sequence_sum_eq_series_sum (a r : ℚ) (n : ℤ)
    (h : 1 ≤ n) (hr : r ≠ 1) :
    (generate_geometric_sequence a r n).sum
      = calculate_geometric_series_sum a r n := by
  have hn : (n.toNat : ℤ) = n := Int.toNat_of_nonneg (by omega)
  have hzpow : r ^ n = r ^ n.toNat := by
    rw [← zpow_natCast, hn]
  have hden : (1 : ℚ) - r ≠ 0 := sub_ne_zero_of_ne (Ne.symm hr)
  have hden' : r - 1 ≠ 0 := sub_ne_zero_of_ne hr
  unfold generate_geometric_sequence calculate_geometric_series_sum
  rw [if_neg hr, list_sum_map_range, ← Finset.mul_sum, geom_sum_eq hr, hzpow]
  field_simp
  ring

/-- Witness for C4 at `a = 2`, `r = 3`, `n = 4` (spec Scenario 3:
`2 + 6 + 18 + 54 = 80`). -/
theorem geometric_sequence_sum_eq_series_sum_witness :
    (1 : ℤ) ≤ 4 ∧ (3 : ℚ) ≠ 1 ∧
    (generate_geometric_sequence 2 3 4).sum
      = calculate_geometric_series_sum 2 3 4 :=
  ⟨by decide, by norm_num,
    geometric_sequence_sum_eq_series_sum 2 3 4 (by decide) (by norm_num)⟩

theorem arithmetic_sum_closed_form_nat (a d : ℚ) (m : ℕ) :
    ((List.range m).map fun i : ℕ => a + (i : ℚ) * d).sum
      = ((m : ℚ) / 2) * (2 * a + ((m : ℚ) - 1) * d) := by
  induction m with
  | zero => simp
  | succ k ih =>
      rw [List.range_succ, List.map_append, List.sum_append, ih,
        List.map_singleton, List.sum_singleton]
      push_cast
      ring

/-- C5: for `n ≥ 1`, the sum of the elements of
`generate_arithmetic_sequence a d n` (which is how `main` computes the
arithmetic sum) equals the closed form `(n / 2) * (2 * a + (n - 1) * d)`,
exactly over rational arithmetic. -/
theorem arithmetic_sequence_sum_closed_form (a d : ℚ) (n : ℤ) (h : 1 ≤ n) :
    (generate_arithmetic_sequence a d n).sum
      = ((n : ℚ) / 2) * (2 * a + ((n : ℚ) - 1) * d) := by
  have hn : (n.toNat : ℤ) = n := Int.toNat_of_nonneg (by omega)
  have hq : ((n.toNat : ℚ)) = (n : ℚ) := by exact_mod_cast congrArg (fun z : ℤ => (z : ℚ)) hn
  unfold generate_arithmetic_sequence
  rw [arithmetic_sum_closed_form_nat, hq]

/-- Witness for C5 at `a = 2`, `d = 3`, `n = 5` (spec Scenario 1:
`2 + 5 + 8 + 11 + 14 = 40`). -/
theorem arithmetic_sequence_sum_closed_form_witness :
    (1 : ℤ) ≤ 5 ∧
    (generate_arithmetic_sequence 2 3 5).sum
      = (((5 : ℤ) : ℚ) / 2) * (2 * 2 + (((5 : ℤ) : ℚ) - 1) * 3) :=
  ⟨by decide, arithmetic_sequence_sum_closed_form 2 3 5 (by decide)⟩

/-- Counterexample to C6 as stated: called with `termCount = 0 < 1`, both
generators do not fail with an `InvalidArgument` error — they return the
empty list as an ordinary value (the loop body simply runs zero times). -/
theorem generators_no_failure_counterexample :
    generate_arithmetic_sequence 1 1 0 = ([] : List ℚ) ∧
    generate_geometric_sequence 1 2 0 = ([] : List ℚ) :=
  ⟨rfl, rfl⟩

/-- C6 (amended): for `termCount < 1` both generators return the empty
sequence and raise no error; the `InvalidArgument` rejection (the inline
"Number of terms must be a positive integer." message) is produced by the
caller `main` before the engine is invoked. -/
theorem generators_empty_caller_rejects (a d r : ℚ) (n : ℤ) (h : n < 1) :
    generate_arithmetic_sequence a d n = [] ∧
    generate_geometric_sequence a r n = [] ∧
    num_terms_validation_error n
      = some "Number of terms must be a positive integer." := by
  have h0 : n.toNat = 0 := by omega
  refine ⟨?_, ?_, ?_⟩
  · simp [generate_arithmetic_sequence, h0]
  · simp [generate_geometric_sequence, h0]
  · unfold num_terms_validation_error
    rw [if_pos (by omega)]

/-- Witness for amended C6 at `a = 1`, `d = 1`, `r = 2`, `n = 0`. -/
theorem generators_empty_caller_rejects_witness :
    (0 : ℤ) < 1 ∧
    num_terms_validation_error 0
      = some "Number of terms must be a positive integer." :=
  ⟨by decide, (generators_empty_caller_rejects 1 1 2 0 (by decide)).2.2⟩

/-- C7: `calculate_geometric_series_sum` is a total function (no failure
mode); at `termCount = 0` it returns `0`, and each branch formula yields
`0` there: `a * 0 = 0` on the `r = 1` branch and
`a * (1 - r ^ 0) / (1 - r) = 0` on the `r ≠ 1` branch. -/
theorem geometric_series_sum_zero_terms (a r : ℚ) :
    calculate_geometric_series_sum a r 0 = 0 ∧
    a * ((0 : ℤ) : ℚ) = 0 ∧
    a * (1 - r ^ (0 : ℤ)) / (1 - r) = 0 := by
  refine ⟨?_, by simp, by simp⟩
  by_cases hr : r = 1 <;> simp [calculate_geometric_series_sum, hr]

/-- C8: on the only branch that divides, taken when `r ≠ 1`, the
denominator `1 - r` of `calculate_geometric_series_sum` is nonzero, so no
division by zero occurs for validated input. -/
theorem geometric_series_sum_denominator_nonzero (a r : ℚ) (n : ℤ)
    (hr : r ≠ 1) :
    1 - r ≠ 0 ∧
    calculate_geometric_series_sum a r n = a * (1 - r ^ n) / (1 - r) := by
  refine ⟨sub_ne_zero_of_ne (Ne.symm hr), ?_⟩
  simp [calculate_geometric_series_sum, hr]

/-- Witness for C8 at `a = 2`, `r = 2`, `n = 3`. -/
theorem geometric_series_sum_denominator_nonzero_witness :
    (2 : ℚ) ≠ 1 ∧ (1 : ℚ) - 2 ≠ 0 ∧
    calculate_geometric_series_sum 2 2 3 = 2 * (1 - 2 ^ (3 : ℤ)) / (1 - 2) :=
  ⟨by norm_num,
    (geometric_series_sum_denominator_nonzero 2 2 3 (by norm_num)).1,
    (geometric_series_sum_denominator_nonzero 2 2 3 (by norm_num)).2⟩

/-- C9: for `n ≥ 1`, `generate_geometric_sequence a 0 n` is `a` followed by
`n - 1` zeros (resting on `0 ^ 0 = 1`), and for a negative ratio and
nonzero `a` consecutive generated terms have opposite signs. -/
theorem geometric_ratio_zero_and_alternating (a : ℚ) (n : ℤ) (hn : 1 ≤ n) :
    generate_geometric_sequence a 0 n = a :: List.replicate (n.toNat - 1) 0 ∧
    (∀ r : ℚ, r < 0 → a ≠ 0 → ∀ i : ℕ, (i : ℤ) + 1 < n →
      (generate_geometric_sequence a r n).getD i 0 *
        (generate_geometric_sequence a r n).getD (i + 1) 0 < 0) := by
  constructor
  · apply List.ext_getElem
    · simp [generate_geometric_sequence]
      omega
    · intro i h1 h2
      unfold generate_geometric_sequence at h1 ⊢
      simp only [List.getElem_map, List.getElem_range]
      match i with
      | 0 => simp
      | j + 1 =>
          rw [List.getElem_cons_succ, List.getElem_replicate]
          simp [zero_pow (Nat.succ_ne_zero j)]
  · intro r hrneg ha i hi
    have h1 : i < n.toNat := by omega
    have h2 : i + 1 < n.toNat := by omega
    rw [generate_geometric_sequence_getD a r n h1,
      generate_geometric_sequence_getD a r n h2]
    have key : a * r ^ i * (a * r ^ (i + 1)) = a ^ 2 * r ^ (2 * i + 1) := by
      rw [show 2 * i + 1 = i + (i + 1) by omega, pow_add]
      ring
    have hpos : 0 < a ^ 2 := pow_two_pos_of_ne_zero ha
    have hneg : r ^ (2 * i + 1) < 0 := Odd.pow_neg ⟨i, by omega⟩ hrneg
    rw [key]
    exact mul_neg_of_pos_of_neg hpos hneg

/-- Witness for C9: at `n = 4`, ratio `0` gives `a` then zeros, and at
`a = 3`, `r = -2` the first two terms have a negative product. -/
theorem geometric_ratio_zero_and_alternating_witness :
    (1 : ℤ) ≤ 4 ∧
    generate_geometric_sequence 5 0 4
      = 5 :: List.replicate ((4 : ℤ).toNat - 1) 0 ∧
    (generate_geometric_sequence 3 (-2) 4).getD 0 0 *
      (generate_geometric_sequence 3 (-2) 4).getD 1 0 < 0 :=
  ⟨by decide,
    (geometric_ratio_zero_and_alternating 5 4 (by decide)).1,
    (geometric_ratio_zero_and_alternating 3 4 (by decide)).2 (-2)
      (by norm_num) (by norm_num) 0 (by decide)⟩

/-- C10: for every `termCount ≤ 0` both generators return the empty
sequence and raise no error; such inputs are rejected by the caller
(`main` reports an error message), not by the engine. -/
theorem generators_return_empty_for_nonpositive (a d r : ℚ) (n : ℤ)
    (h : n ≤ 0) :
    generate_arithmetic_sequence a d n = [] ∧
    generate_geometric_sequence a r n = [] ∧
    (num_terms_validation_error n).isSome = true := by
  have h0 : n.toNat = 0 := by omega
  refine ⟨?_, ?_, ?_⟩
  · simp [generate_arithmetic_sequence, h0]
  · simp [generate_geometric_sequence, h0]
  · unfold num_terms_validation_error
    rw [if_pos h]
    rfl

/-- Witness for C10 at `a = 1`, `d = 2`, `r = 3`, `n = -3`. -/
theorem generators_return_empty_for_nonpositive_witness :
    (-3 : ℤ) ≤ 0 ∧ generate_arithmetic_sequence 1 2 (-3) = [] :=
  ⟨by decide, (generators_return_empty_for_nonpositive 1 2 3 (-3) (by decide)).1⟩
